import Mathlib

/-!
Shallow embedding of the booking / reservation core of the `vexemphim`
cinema-ticketing backend (mongoose models `Ticket`, `Payment`, `Schedule`,
`Room` and the `Promotion` model), together with theorems settling the
frozen claims about the natural-language specification.

Conventions of the embedding:
* money amounts are rationals (`ℚ`), mirroring JavaScript number
  arithmetic on the magnitudes that occur here;
* timestamps are integers (`ℤ`), a point on the millisecond time line;
* mongoose documents become Lean structures; absent optional fields are
  `Option.none`; JavaScript truthiness of an optional number is
  "present and nonzero";
* fallible operations return `Except`;
* a mongo collection is a `List` of documents, and the partial unique
  indexes become explicit checks on insertion.
-/

namespace Vexemphim

/-- Reservation (`Ticket`) lifecycle status, from `src/models/Ticket.js`
(`status` enum `['pending', 'paid', 'cancelled', 'refunded']`). -/
inductive TicketStatus
  | pending
  | paid
  | cancelled
  | refunded
  deriving DecidableEq, Repr

/-- Payment status, from `src/models/Payment.js`
(`status` enum `['pending', 'success', 'failed', 'refunded']`).  The
`Payment` pre-save hook assigns this value directly to the ticket's
`paymentStatus` field, so the ticket-side field is modelled with the same
type. -/
inductive PaymentStatus
  | pending
  | success
  | failed
  | refunded
  deriving DecidableEq, Repr

/-- Showing (`Schedule`) status, from `src/models/Schedule.js`. -/
inductive ScheduleStatus
  | scheduled
  | cancelled
  | completed
  deriving DecidableEq, Repr

/-- Seat type, shared by `Room.js` and `Ticket.js` seat subdocuments. -/
inductive SeatType
  | standard
  | vip
  deriving DecidableEq, Repr

/-- Seat status in a room's seat map, from `src/models/Room.js`. -/
inductive RoomSeatStatus
  | available
  | maintenance
  deriving DecidableEq, Repr

/-- Discount type of a voucher / promotion (`['percent', 'fixed']`). -/
inductive DiscountType
  | percent
  | fixed
  deriving DecidableEq, Repr

/-- A seat subdocument embedded in a `Ticket` (`seatSchema` in
`src/models/Ticket.js`): code, type and the price frozen into the
reservation. -/
structure TicketSeat where
  code : String
  type : SeatType
  price : ℚ
  deriving DecidableEq, Repr

/-- A concession line item embedded in a `Ticket` (`comboItemSchema`):
name, quantity and unit price. -/
structure ComboItem where
  name : String
  qty : ℕ
  price : ℚ
  deriving DecidableEq, Repr

/-- The voucher snapshot embedded in a `Ticket` (`ticketSchema.voucher`):
code, discount value, discount type and optional cap, all frozen at
reservation time. -/
structure Voucher where
  code : String
  discountValue : Option ℚ
  discountType : Option DiscountType
  maxDiscount : Option ℚ
  deriving DecidableEq, Repr

/-- A reservation document (`ticketSchema` in `src/models/Ticket.js`),
restricted to the fields the verified claims touch. -/
structure Ticket where
  userId : ℕ
  scheduleId : ℕ
  roomId : ℕ
  seats : List TicketSeat
  combos : List ComboItem
  voucher : Option Voucher
  subtotal : ℚ
  discount : ℚ
  totalAmount : ℚ
  status : TicketStatus
  paymentStatus : PaymentStatus
  pendingExpiresAt : ℤ
  cancellationReason : String
  cancelledBy : Option ℕ
  cancelledAt : Option ℤ
  deriving DecidableEq, Repr

/-- JavaScript truthiness of an optional numeric field: present and
nonzero. -/
def jsTruthyQ : Option ℚ → Bool
  | none => false
  | some v => v != 0

/-- JavaScript truthiness of an optional natural-number field. -/
def jsTruthyNat : Option ℕ → Bool
  | none => false
  | some n => n != 0

/-- `this.seats.reduce((sum, seat) => sum + seat.price, 0)` from the
`Ticket` pricing pre-save hook. -/
def seatTotal (seats : List TicketSeat) : ℚ :=
  (seats.map (fun s => s.price)).sum

/-- `this.combos.reduce((sum, combo) => sum + (combo.price * combo.qty), 0)`
from the `Ticket` pricing pre-save hook. -/
def comboTotal (combos : List ComboItem) : ℚ :=
  (combos.map (fun c => c.price * (c.qty : ℚ))).sum

/-- The voucher-discount computation of the `Ticket` pricing pre-save hook
(`src/models/Ticket.js`): runs only when a voucher with a truthy
`discountValue` is present; `percent` computes `subtotal*value/100` capped
at a truthy `maxDiscount`; otherwise `Math.min(discountValue, subtotal)`. -/
def voucherDiscount (voucher : Option Voucher) (subtotal : ℚ) : ℚ :=
  match voucher with
  | none => 0
  | some v =>
    if jsTruthyQ v.discountValue then
      let dv := v.discountValue.getD 0
      if v.discountType = some DiscountType.percent then
        let d := subtotal * dv / 100
        if jsTruthyQ v.maxDiscount ∧ d > v.maxDiscount.getD 0 then
          v.maxDiscount.getD 0
        else d
      else
        min dv subtotal
    else 0

/-- The pricing pre-save hook of `ticketSchema` (`src/models/Ticket.js`,
first `pre('save')`): recomputes `subtotal` from the embedded seats and
combos, the voucher discount, and `totalAmount = subtotal - discount`. -/
def applyPricingHook (t : Ticket) : Ticket :=
  let subtotal := seatTotal t.seats + comboTotal t.combos
  let discount := voucherDiscount t.voucher subtotal
  { t with subtotal := subtotal, discount := discount,
           totalAmount := subtotal - discount }

/-- The guard of the pricing pre-save hook: it fires only when the ticket
is new or its `seats` / `combos` / `voucher` paths were modified. -/
def ticketPreSave (t : Ticket) (isNew modSeats modCombos modVoucher : Bool) : Ticket :=
  if isNew || modSeats || modCombos || modVoucher then applyPricingHook t else t

/-- Seat codes claimed by a reservation (`seats.code` in the mongo
index). -/
def ticketSeatCodes (t : Ticket) : List String :=
  t.seats.map (fun s => s.code)

/-- `status: { $ne: 'cancelled' }`, the predicate of the partial unique
index on `(scheduleId, seats.code)` in `src/models/Ticket.js`. -/
def nonCancelled (t : Ticket) : Bool :=
  t.status != TicketStatus.cancelled

/-- A pending reservation whose stored `pendingExpiresAt` lies strictly
before `now` is an expired hold (the TTL index
`{ expireAfterSeconds: 0 }` eventually deletes such documents). -/
def nonExpired (now : ℤ) (t : Ticket) : Bool :=
  !(t.status == TicketStatus.pending && decide (t.pendingExpiresAt < now))

/-- A non-cancelled reservation against showing `sid` that contains seat
code `c`: exactly the documents carrying the index key `(sid, c)` under
the partial filter of the unique index. -/
def claimsSeat (sid : ℕ) (c : String) (t : Ticket) : Bool :=
  nonCancelled t && t.scheduleId == sid && (ticketSeatCodes t).contains c

/-- Errors surfaced by the embedded collection operations. -/
inductive BookingError
  | seatConflict
  | roomConflict
  deriving DecidableEq, Repr

/-- Whether inserting ticket `t` violates the partial unique index
`{ scheduleId: 1, 'seats.code': 1 }` with filter
`status: { $ne: 'cancelled' }`: the new document is itself indexed (it is
non-cancelled) and some stored non-cancelled document shares an index key
`(scheduleId, code)` with it. -/
def seatIndexConflict (store : List Ticket) (t : Ticket) : Bool :=
  nonCancelled t &&
    store.any (fun u =>
      nonCancelled u && u.scheduleId == t.scheduleId &&
        (ticketSeatCodes t).any (fun c => (ticketSeatCodes u).contains c))

/-- Insertion of a reservation document into the `tickets` collection:
mongo rejects the write with a duplicate-key error (surfaced as a
seat-conflict) when the partial unique index is violated. -/
def insertTicket (store : List Ticket) (t : Ticket) :
    Except BookingError (List Ticket) :=
  if seatIndexConflict store t then Except.error BookingError.seatConflict
  else Except.ok (t :: store)

/-- The claimed seat-uniqueness invariant at the granularity the index
enforces it: for every showing and seat code, at most one non-cancelled
stored reservation carries that code. -/
def SeatUnique (store : List Ticket) : Prop :=
  ∀ (sid : ℕ) (c : String), (store.filter (claimsSeat sid c)).length ≤ 1

/-- `ticketSchema.methods.cancel` (`src/models/Ticket.js`): throws when
the ticket is already `cancelled`, otherwise records reason / actor /
timestamp and sets the status to `cancelled`.  Note the guard checks only
for `'cancelled'`. -/
def cancelTicket (t : Ticket) (userId : ℕ) (reason : String) (now : ℤ) :
    Except String Ticket :=
  if t.status = TicketStatus.cancelled then
    Except.error "Ticket is already cancelled"
  else
    Except.ok { t with status := TicketStatus.cancelled,
                       cancellationReason := reason,
                       cancelledBy := some userId,
                       cancelledAt := some now }

/-- The ticket-side effect of the `Payment` pre-save hook
(`src/models/Payment.js`): when the payment's status differs from the
ticket's recorded payment status it is copied over; a `success` payment
moves a `pending` ticket to `paid`; a `refunded` payment moves a `paid`
ticket to `refunded`.  No condition of the hook reads the clock or the
ticket's `pendingExpiresAt`. -/
def propagatePaymentStatus (pstatus : PaymentStatus) (t : Ticket) : Ticket :=
  if t.paymentStatus == pstatus then t
  else
    let t1 := { t with paymentStatus := pstatus }
    let t2 :=
      if pstatus == PaymentStatus.success && t1.status == TicketStatus.pending then
        { t1 with status := TicketStatus.paid }
      else t1
    if pstatus == PaymentStatus.refunded && t2.status == TicketStatus.paid then
      { t2 with status := TicketStatus.refunded }
    else t2

/-- A payment document (`src/models/Payment.js`), restricted to the
fields the claims touch. -/
structure Payment where
  ticketId : ℕ
  userId : ℕ
  amount : ℚ
  status : PaymentStatus
  deriving DecidableEq, Repr

/-- The `Payment` pre-save hook fires only when the payment's `status`
path was modified. -/
def paymentPreSave (p : Payment) (modifiedStatus : Bool) (t : Ticket) : Ticket :=
  if modifiedStatus then propagatePaymentStatus p.status t else t

/-- Per-seat-type price table of a showing
(`scheduleSchema.priceTable`). -/
structure PriceTable where
  standard : ℚ
  vip : ℚ
  deriving DecidableEq, Repr

/-- A showing document (`scheduleSchema` in `src/models/Schedule.js`),
restricted to the fields the claims touch; `sid` models `_id`. -/
structure Schedule where
  sid : ℕ
  movieId : ℕ
  cinemaId : ℕ
  roomId : ℕ
  startTime : ℤ
  endTime : ℤ
  priceTable : PriceTable
  status : ScheduleStatus
  deriving DecidableEq, Repr

/-- The `$or` clause of the overlap query in the `Schedule` pre-save hook
(`src/models/Schedule.js`), with `(s, e)` an existing showing's interval
and `(newS, newE)` the candidate's:
`startTime: { $lt: newE, $gte: newS }`, or
`endTime: { $gt: newS, $lte: newE }`, or
`startTime: { $lte: newS }, endTime: { $gte: newE }`. -/
def overlapClause (s e newS newE : ℤ) : Bool :=
  (decide (s < newE) && decide (newS ≤ s)) ||
  (decide (newS < e) && decide (e ≤ newE)) ||
  (decide (s ≤ newS) && decide (newE ≤ e))

/-- The full filter of the overlap query: a different document, same
room, not cancelled, and matching the `$or` clause. -/
def conflictsWith (cand : Schedule) (x : Schedule) : Bool :=
  x.sid != cand.sid && x.roomId == cand.roomId &&
    x.status != ScheduleStatus.cancelled &&
    overlapClause x.startTime x.endTime cand.startTime cand.endTime

/-- The overlap-checking pre-save hook of `scheduleSchema`: `findOne` on
the conflict filter; any hit aborts the save with a room-conflict
error. -/
def scheduleOverlapCheck (schedules : List Schedule) (cand : Schedule) :
    Except BookingError Schedule :=
  match schedules.find? (conflictsWith cand) with
  | some _ => Except.error BookingError.roomConflict
  | none => Except.ok cand

/-- Half-open interval overlap, the relation the specification names:
`[s, e)` meets `[newS, newE)`. -/
def halfOpenOverlap (s e newS newE : ℤ) : Prop :=
  newS < e ∧ s < newE

/-- A seat subdocument of a room's seat map (`seatSchema` in
`src/models/Room.js`). -/
structure RoomSeat where
  code : String
  type : SeatType
  status : RoomSeatStatus
  row : ℕ
  column : ℕ
  deriving DecidableEq, Repr

/-- A room document (`roomSchema` in `src/models/Room.js`), restricted to
the fields the claims touch. -/
structure Room where
  cinemaId : ℕ
  name : String
  capacity : ℕ
  seats : List RoomSeat
  deriving DecidableEq, Repr

/-- `Math.ceil(Math.sqrt(capacity * 1.5))` from
`roomSchema.methods.generateSeatMap`: the least `k` with
`k^2 ≥ 3*capacity/2`, i.e. with `k^2 ≥ ⌈3*capacity/2⌉`. -/
def seatMapRows (capacity : ℕ) : ℕ :=
  if Nat.sqrt ((3 * capacity + 1) / 2) * Nat.sqrt ((3 * capacity + 1) / 2) =
       (3 * capacity + 1) / 2 then
    Nat.sqrt ((3 * capacity + 1) / 2)
  else
    Nat.sqrt ((3 * capacity + 1) / 2) + 1

/-- `Math.ceil(this.capacity / rows)` from `generateSeatMap`. -/
def seatsPerRow (capacity rows : ℕ) : ℕ :=
  (capacity + rows - 1) / rows

/-- `alphabet[row]` for `alphabet = 'ABCDEFGHIJKLMNOPQRSTUVWXYZ'`: the
row letter for rows 0–25; for larger indices JavaScript yields
`undefined`, which the template literal renders as the string
`"undefined"`. -/
def rowLetter (r : ℕ) : String :=
  if r < 26 then String.singleton (Char.ofNat (65 + r)) else "undefined"

/-- One generated seat of the seat map: code `` `${rowLetter}${col}` ``
with `col = j + 1`, vip in the first two rows, initially available. -/
def mkRoomSeat (r j : ℕ) : RoomSeat :=
  { code := rowLetter r ++ Nat.repr (j + 1),
    type := if r < 2 then SeatType.vip else SeatType.standard,
    status := RoomSeatStatus.available,
    row := r,
    column := j }

/-- `roomSchema.methods.generateSeatMap` (`src/models/Room.js`): walks the
`rows × seatsPerRow` grid in row-major order, stopping once `capacity`
seats have been emitted — i.e. the first `capacity` entries of the full
grid. -/
def generateSeatMap (capacity : ℕ) : List RoomSeat :=
  (((List.range (seatMapRows capacity)).map (fun r =>
      (List.range (seatsPerRow capacity (seatMapRows capacity))).map
        (fun j => mkRoomSeat r j))).flatten).take capacity

/-- The `Room` pre-save hook: when the document is new or `capacity` was
modified, the seat map is regenerated from `capacity` alone (discarding
whatever was in `seats`) and `capacity` is reset to the generated
length. -/
def roomPreSave (r : Room) (isNew modCapacity : Bool) : Room :=
  if isNew || modCapacity then
    let seats := generateSeatMap r.capacity
    { r with seats := seats, capacity := seats.length }
  else r

/-- Usage-restriction block of a promotion
(`promotionSchema.usageRestrictions` in `src/unnamed/part_000`). -/
structure UsageRestrictions where
  onePerUser : Bool
  firstTimeUserOnly : Bool
  minPreviousOrders : ℕ
  deriving DecidableEq, Repr

/-- Movie/category applicability block of a promotion
(`promotionSchema.applicableTo`). -/
structure ApplicableTo where
  movies : List ℕ
  categories : List String
  deriving DecidableEq, Repr

/-- A promotion document (`promotionSchema` in `src/unnamed/part_000`),
restricted to the fields the claims touch. -/
structure Promotion where
  code : String
  type : DiscountType
  value : ℚ
  maxDiscount : Option ℚ
  minOrderAmount : ℚ
  startDate : ℤ
  endDate : ℤ
  maxUses : Option ℕ
  currentUses : ℕ
  isActive : Bool
  applicableTo : ApplicableTo
  usageRestrictions : UsageRestrictions
  deriving DecidableEq, Repr

/-- The `isCurrentlyActive` virtual: active flag set, `now` inside the
validity window, and either no `maxUses` field or `currentUses` strictly
below it. -/
def isCurrentlyActive (p : Promotion) (now : ℤ) : Bool :=
  p.isActive && decide (p.startDate ≤ now) && decide (now ≤ p.endDate) &&
    (p.maxUses == none || decide (p.currentUses < p.maxUses.getD 0))

/-- Number of ticket documents matching a predicate
(`countDocuments`). -/
def countTickets (tickets : List Ticket) (pred : Ticket → Bool) : ℕ :=
  (tickets.filter pred).length

/-- `countDocuments({ userId })`: every prior reservation of the
customer, regardless of status. -/
def allOrdersPred (u : ℕ) (t : Ticket) : Bool :=
  t.userId == u

/-- `countDocuments({ userId, status: 'paid' })`: prior paid
reservations of the customer. -/
def paidOrdersPred (u : ℕ) (t : Ticket) : Bool :=
  t.userId == u && t.status == TicketStatus.paid

/-- `countDocuments({ userId, 'voucher.code': code, status:
{ $ne: 'cancelled' } })`: prior non-cancelled reservations of the
customer carrying this promotion code. -/
def promoUsedPred (code : String) (u : ℕ) (t : Ticket) : Bool :=
  t.userId == u && t.voucher.map (fun v => v.code) == some code &&
    t.status != TicketStatus.cancelled

/-- `promotionSchema.methods.canBeUsedByUser`: requires the promotion
currently active and the user record found, then applies the three
usage-restriction checks in the source's order, each returning `false`
early on failure. -/
def canBeUsedByUser (p : Promotion) (now : ℤ) (tickets : List Ticket)
    (userId : ℕ) (userExists : Bool) : Bool :=
  if !(isCurrentlyActive p now) then false
  else if !userExists then false
  else if p.usageRestrictions.firstTimeUserOnly &&
          decide (0 < countTickets tickets (allOrdersPred userId)) then false
  else if decide (0 < p.usageRestrictions.minPreviousOrders) &&
          decide (countTickets tickets (paidOrdersPred userId) <
                    p.usageRestrictions.minPreviousOrders) then false
  else if p.usageRestrictions.onePerUser &&
          decide (0 < countTickets tickets (promoUsedPred p.code userId)) then false
  else true

/-- `promotionSchema.methods.isApplicableToMovie`: unconditional when no
movie list and no category list is configured, otherwise a hit in either
list. -/
def isApplicableToMovie (p : Promotion) (now : ℤ) (movieId : ℕ)
    (movieGenres : List String) : Bool :=
  if !(isCurrentlyActive p now) then false
  else if p.applicableTo.movies.isEmpty && p.applicableTo.categories.isEmpty then true
  else if p.applicableTo.movies.contains movieId then true
  else if !p.applicableTo.categories.isEmpty &&
          movieGenres.any (fun g => p.applicableTo.categories.contains g) then true
  else false

/-- Rejection reasons of `validateAndApply`, one per distinct thrown
error message in the source. -/
inductive PromoRejection
  | notFoundOrExpired
  | exhausted
  | belowMinimum
  | inapplicable
  | ineligible
  deriving DecidableEq, Repr

/-- The frozen discount plan returned by `validateAndApply` on
success. -/
structure DiscountPlan where
  code : String
  name : String
  type : DiscountType
  value : ℚ
  maxDiscount : Option ℚ
  discountAmount : ℚ
  deriving DecidableEq, Repr

/-- `code.toUpperCase()` on the ASCII promotion codes this system uses:
upper-case every character. -/
def jsToUpper (s : String) : String :=
  String.mk (s.data.map Char.toUpper)

/-- The `findOne` query of `validateAndApply`: first promotion whose code
equals the upper-cased input, with the active flag set and `now` inside
the validity window. -/
def findPromotion (promos : List Promotion) (code : String) (now : ℤ) :
    Option Promotion :=
  promos.find? (fun p =>
    p.code == jsToUpper code && p.isActive &&
      decide (p.startDate ≤ now) && decide (now ≤ p.endDate))

/-- The usage-cap guard of `validateAndApply` and `incrementUsage`:
`promotion.maxUses && promotion.currentUses >= promotion.maxUses` — note
the JavaScript truthiness test, under which `maxUses = 0` disables the
guard. -/
def maxUsesExhausted (p : Promotion) : Bool :=
  jsTruthyNat p.maxUses && decide (p.maxUses.getD 0 ≤ p.currentUses)

/-- The discount computation at the end of `validateAndApply`
(`src/unnamed/part_000`): `percent` computes `orderAmount*value/100`
capped at a truthy `maxDiscount`; `fixed` computes
`Math.min(value, orderAmount)`. -/
def promoDiscountAmount (p : Promotion) (orderAmount : ℚ) : ℚ :=
  if p.type = DiscountType.percent then
    let d := orderAmount * p.value / 100
    if jsTruthyQ p.maxDiscount ∧ d > p.maxDiscount.getD 0 then
      p.maxDiscount.getD 0
    else d
  else
    min p.value orderAmount

/-- `promotionSchema.statics.validateAndApply`: look the code up, then
check — in the source's order — the usage cap, the minimum order amount,
movie applicability (when a movie is given) and user eligibility (when a
user is given); on success return the frozen discount plan.
`userExists` stands for the `User.findById` lookup inside
`canBeUsedByUser`. -/
def validateAndApply (promos : List Promotion) (code : String)
    (userId : Option ℕ) (orderAmount : ℚ) (movieId : Option ℕ)
    (movieGenres : List String) (now : ℤ) (tickets : List Ticket)
    (userExists : Bool) : Except PromoRejection DiscountPlan :=
  match findPromotion promos code now with
  | none => Except.error PromoRejection.notFoundOrExpired
  | some p =>
    if maxUsesExhausted p then Except.error PromoRejection.exhausted
    else if orderAmount < p.minOrderAmount then Except.error PromoRejection.belowMinimum
    else if movieId.any (fun m => !(isApplicableToMovie p now m movieGenres)) then
      Except.error PromoRejection.inapplicable
    else if userId.any (fun u => !(canBeUsedByUser p now tickets u userExists)) then
      Except.error PromoRejection.ineligible
    else
      Except.ok { code := p.code, name := p.code, type := p.type,
                  value := p.value, maxDiscount := p.maxDiscount,
                  discountAmount := promoDiscountAmount p orderAmount }

/-- `promotionSchema.methods.incrementUsage`: error when the truthy-cap
guard fires, otherwise increment `currentUses` and deactivate once the
(truthy) cap is reached. -/
def incrementUsage (p : Promotion) : Except String Promotion :=
  if maxUsesExhausted p then Except.error "Promotion usage limit reached"
  else
    let p' := { p with currentUses := p.currentUses + 1 }
    if maxUsesExhausted p' then Except.ok { p' with isActive := false }
    else Except.ok p'

/-- The database state the frame claims range over: the three collections
a price recomputation could conceivably consult. -/
structure Env where
  schedules : List Schedule
  promotions : List Promotion
  tickets : List Ticket
  deriving Repr

/-- An administrative edit of one showing's price table. -/
def updatePriceTable (e : Env) (sid : ℕ) (pt : PriceTable) : Env :=
  { e with schedules := e.schedules.map (fun s =>
      if s.sid = sid then { s with priceTable := pt } else s) }

/-- An administrative edit of one promotion's discount rules (type, value
and cap). -/
def updatePromotionRules (e : Env) (code : String) (ty : DiscountType)
    (v : ℚ) (md : Option ℚ) : Env :=
  { e with promotions := e.promotions.map (fun p =>
      if p.code = code then { p with type := ty, value := v, maxDiscount := md } else p) }

/-- The price snapshot stored on a reservation: the computed totals and
the embedded voucher. -/
structure Snapshot where
  subtotal : ℚ
  discount : ℚ
  totalAmount : ℚ
  voucher : Option Voucher
  deriving DecidableEq, Repr

/-- Read a reservation's stored price snapshot. -/
def snapshotOf (t : Ticket) : Snapshot :=
  { subtotal := t.subtotal, discount := t.discount,
    totalAmount := t.totalAmount, voucher := t.voucher }

/-! ### Concrete fixtures used by witnesses and counterexamples -/

/-- The vip seat of the specification's concrete pricing scenario. -/
def seatA1vip : TicketSeat :=
  { code := "A1", type := SeatType.vip, price := 120000 }

/-- The standard seat of the specification's concrete pricing scenario. -/
def seatB3std : TicketSeat :=
  { code := "B3", type := SeatType.standard, price := 90000 }

/-- The concession line item of the concrete pricing scenario: quantity 2
at unit price 50000. -/
def comboSnack : ComboItem :=
  { name := "Snack combo", qty := 2, price := 50000 }

/-- The reservation of the concrete pricing scenario: seats A1 (vip) and
B3 (standard), one concession item, no promotion, freshly created (hold
expires at millisecond 600000 = 10 minutes after epoch 0). -/
def scenarioTicket : Ticket :=
  { userId := 1, scheduleId := 1, roomId := 1,
    seats := [seatA1vip, seatB3std],
    combos := [comboSnack],
    voucher := none, subtotal := 0, discount := 0, totalAmount := 0,
    status := TicketStatus.pending, paymentStatus := PaymentStatus.pending,
    pendingExpiresAt := 600000, cancellationReason := "",
    cancelledBy := none, cancelledAt := none }

/-- The SUMMER10 voucher snapshot: percent 10 capped at 25000. -/
def voucherSummer10 : Voucher :=
  { code := "SUMMER10", discountValue := some 10,
    discountType := some DiscountType.percent, maxDiscount := some 25000 }

/-- The SUMMER10 promotion: percent 10, `maxDiscount` 25000, currently
active with no cap and no usage restrictions. -/
def promoSummer10 : Promotion :=
  { code := "SUMMER10", type := DiscountType.percent, value := 10,
    maxDiscount := some 25000, minOrderAmount := 0,
    startDate := 0, endDate := 10 ^ 13, maxUses := none, currentUses := 0,
    isActive := true, applicableTo := { movies := [], categories := [] },
    usageRestrictions :=
      { onePerUser := false, firstTimeUserOnly := false, minPreviousOrders := 0 } }

/-- A percent promotion whose stored maximum discount is zero
(`maxDiscount` has schema minimum 0, so the value is expressible). -/
def promoZeroMax : Promotion :=
  { promoSummer10 with code := "ZEROMAX", maxDiscount := some 0 }

/-- Price table shared by the scheduling fixtures. -/
def scenarioPrices : PriceTable :=
  { standard := 90000, vip := 120000 }

/-- An existing non-cancelled showing in room 1 from minute 900 (15:00)
to minute 1020 (17:00). -/
def showing1517 : Schedule :=
  { sid := 1, movieId := 1, cinemaId := 1, roomId := 1,
    startTime := 900, endTime := 1020, priceTable := scenarioPrices,
    status := ScheduleStatus.scheduled }

/-- A candidate showing in the same room from minute 840 (14:00) to
minute 960 (16:00). -/
def showing1416 : Schedule :=
  { showing1517 with sid := 2, startTime := 840, endTime := 960 }

/-- A candidate showing in the same room from minute 720 (12:00) to
minute 900 (15:00), touching the existing showing's start. -/
def showing1215 : Schedule :=
  { showing1517 with sid := 3, startTime := 720, endTime := 900 }

/-- A second customer's attempt at seat A1 of the same showing. -/
def rivalTicket : Ticket :=
  { scenarioTicket with userId := 9, seats := [seatA1vip], combos := [] }

/-- A confirm (payment success) event arriving at millisecond 660000,
eleven minutes after the scenario reservation was created at 0 with a
ten-minute hold (`pendingExpiresAt` = 600000). -/
def lateConfirmTime : ℤ := 660000

/-- A reservation that has already been refunded. -/
def refundedTicket : Ticket :=
  { scenarioTicket with status := TicketStatus.refunded,
                        paymentStatus := PaymentStatus.refunded }

/-- A promotion whose usage cap is zero: `maxUses = 0`, already "used"
zero of zero times.  Fixed-type so its discount needs no division. -/
def promoZeroCap : Promotion :=
  { promoSummer10 with code := "ZEROCAP", type := DiscountType.fixed,
                       value := 1000, maxDiscount := none,
                       maxUses := some 0, currentUses := 0 }

/-- A promotion with a positive cap of two uses, both consumed. -/
def promoCapTwo : Promotion :=
  { promoSummer10 with code := "CAPTWO", type := DiscountType.fixed,
                       value := 1000, maxDiscount := none,
                       maxUses := some 2, currentUses := 2 }

/-- The customer-eligibility checks exactly as the specification words
them (stated for comparison with `canBeUsedByUser`): the
first-time-customer check passes only for a customer with zero prior
*paid* reservations, the minimum-prior-orders check counts prior paid
reservations, and the one-use-per-customer check counts prior
non-cancelled reservations carrying this promotion's code. -/
def specEligibilityChecks (p : Promotion) (tickets : List Ticket) (userId : ℕ) : Bool :=
  (!p.usageRestrictions.firstTimeUserOnly ||
     decide (countTickets tickets (paidOrdersPred userId) = 0)) &&
  decide (p.usageRestrictions.minPreviousOrders ≤
            countTickets tickets (paidOrdersPred userId)) &&
  (!p.usageRestrictions.onePerUser ||
     decide (countTickets tickets (promoUsedPred p.code userId) = 0))

/-- A first-time-customers-only promotion with no other restrictions. -/
def promoFirstOnly : Promotion :=
  { promoSummer10 with code := "FIRSTX",
                       usageRestrictions := { onePerUser := false,
                                              firstTimeUserOnly := true,
                                              minPreviousOrders := 0 } }

/-- Customer 5's only prior reservation: a cancelled one (zero paid
reservations). -/
def priorCancelledTicket : Ticket :=
  { scenarioTicket with userId := 5, status := TicketStatus.cancelled }

/-- A ten-seat room about to be saved for the first time, with a
caller-supplied seat list that the save hook will discard. -/
def scenarioRoom : Room :=
  { cinemaId := 1, name := "Room 1", capacity := 10,
    seats := [{ code := "Z9", type := SeatType.standard,
                status := RoomSeatStatus.maintenance, row := 25, column := 8 }] }

/-! ### C4 — pricing invariant and the no-promotion scenario -/

/-- Claim C4: after the pricing hook runs, `subtotal` is the sum of the
embedded seats' prices plus the sum over concession items of unit price
times quantity, and `totalAmount = subtotal - discount`; in the concrete
no-promotion scenario (A1 vip at 120000, B3 standard at 90000, one item
of quantity 2 at 50000) the stored snapshot is subtotal 310000,
discount 0, total 310000. -/
theorem pricing_totals_invariant :
    (∀ t : Ticket,
       (applyPricingHook t).subtotal =
           (t.seats.map (fun s => s.price)).sum +
             (t.combos.map (fun c => c.price * (c.qty : ℚ))).sum ∧
       (applyPricingHook t).totalAmount =
           (applyPricingHook t).subtotal - (applyPricingHook t).discount) ∧
    ((ticketPreSave scenarioTicket true false false false).subtotal = 310000 ∧
     (ticketPreSave scenarioTicket true false false false).discount = 0 ∧
     (ticketPreSave scenarioTicket true false false false).totalAmount = 310000) := by
  constructor
  · intro t
    exact ⟨rfl, rfl⟩
  · refine ⟨?_, ?_, ?_⟩ <;>
      simp [ticketPreSave, applyPricingHook, seatTotal, comboTotal, voucherDiscount,
            scenarioTicket, seatA1vip, seatB3std, comboSnack] <;>
      norm_num

/-! ### C5 — promotion discount computation and the SUMMER10 scenario -/

/-- C5 as the code actually behaves: the discount of an applied
promotion is `amount * value / 100` capped at the optional maximum when
the type is `percent` and the stored maximum is *positive* (uncapped when
no maximum is stored, and — by the JavaScript truthiness guard — also
uncapped when the stored maximum is zero), and `min(value, amount)` when
the type is `fixed`; with subtotal 310000 and SUMMER10 (percent 10,
maximum 25000) the plan's discount is 25000 and the reservation's total
becomes 285000. -/
theorem promo_discount_formula :
    (∀ (p : Promotion) (a m : ℚ), p.type = DiscountType.percent →
       p.maxDiscount = some m → 0 < m →
       promoDiscountAmount p a = min (a * p.value / 100) m) ∧
    (∀ (p : Promotion) (a : ℚ), p.type = DiscountType.percent →
       p.maxDiscount = none →
       promoDiscountAmount p a = a * p.value / 100) ∧
    (∀ (p : Promotion) (a : ℚ), p.type = DiscountType.fixed →
       promoDiscountAmount p a = min p.value a) ∧
    (∀ (p : Promotion) (a : ℚ), p.type = DiscountType.percent →
       p.maxDiscount = some 0 →
       promoDiscountAmount p a = a * p.value / 100) ∧
    (validateAndApply [promoSummer10] "SUMMER10" none 310000 none [] 500 [] true =
       Except.ok { code := "SUMMER10", name := "SUMMER10",
                   type := DiscountType.percent, value := 10,
                   maxDiscount := some 25000, discountAmount := 25000 }) ∧
    ((applyPricingHook { scenarioTicket with voucher := some voucherSummer10 }).discount
         = 25000 ∧
     (applyPricingHook { scenarioTicket with voucher := some voucherSummer10 }).totalAmount
         = 285000) := by
  refine ⟨?_, ?_, ?_, ?_, ?_, ?_⟩
  · intro p a m hty hmd hm
    simp only [promoDiscountAmount, if_pos hty, hmd, jsTruthyQ, Option.getD_some]
    rcases le_or_lt (a * p.value / 100) m with h | h
    · rw [if_neg, min_eq_left h]
      rintro ⟨-, hgt⟩
      exact absurd h (not_le.mpr hgt)
    · rw [if_pos, min_eq_right h.le]
      exact ⟨by simpa using hm.ne', h⟩
  · intro p a hty hmd
    simp [promoDiscountAmount, if_pos hty, hmd, jsTruthyQ]
  · intro p a hty
    have : p.type ≠ DiscountType.percent := by
      rw [hty]; intro h; cases h
    simp [promoDiscountAmount, if_neg this]
  · intro p a hty hmd
    simp [promoDiscountAmount, if_pos hty, hmd, jsTruthyQ]
  · simp [validateAndApply, findPromotion, jsToUpper, promoSummer10, maxUsesExhausted,
          jsTruthyNat, jsTruthyQ, promoDiscountAmount]
    norm_num
  · constructor <;>
      simp [applyPricingHook, seatTotal, comboTotal, voucherDiscount, scenarioTicket,
            seatA1vip, seatB3std, comboSnack, voucherSummer10, jsTruthyQ] <;>
      norm_num

/-- Counterexample to C5: for a percent promotion whose stored optional
maximum discount is zero, the claim's "capped at the optional maximum"
yields `min(310000 * 10 / 100, 0) = 0`, but the code's truthiness guard
`maxDiscount && discountAmount > maxDiscount` is falsy at 0, so the
discount is left uncapped at 31000. -/
theorem promo_zero_max_counterexample :
    promoZeroMax.type = DiscountType.percent ∧
    promoZeroMax.maxDiscount = some 0 ∧
    promoDiscountAmount promoZeroMax 310000 = 31000 ∧
    min (310000 * promoZeroMax.value / 100) (0 : ℚ) = 0 ∧
    promoDiscountAmount promoZeroMax 310000 ≠
      min (310000 * promoZeroMax.value / 100) (0 : ℚ) := by
  refine ⟨rfl, rfl, ?_, ?_, ?_⟩ <;>
    simp [promoDiscountAmount, promoZeroMax, promoSummer10, jsTruthyQ] <;>
    norm_num

/-- Witness for C5: the percent cap clause evaluated at the SUMMER10
promotion on subtotal 310000. -/
theorem promo_discount_formula_witness :
    promoDiscountAmount promoSummer10 310000 = min (310000 * promoSummer10.value / 100) 25000 :=
  promo_discount_formula.1 promoSummer10 310000 25000 rfl rfl (by norm_num)

/-! ### C3 — room-conflict check is half-open interval overlap -/

/-- Claim C3: the `$or` filter of the Schedule pre-save hook matches an
existing (nondegenerate) interval exactly when it overlaps the candidate
under half-open `[start, end)` semantics, so for a fresh candidate with a
new id the save fails with a room conflict iff some non-cancelled showing
of the same room half-open-overlaps it — touching boundaries do not
conflict; concretely, 14:00–16:00 against an existing 15:00–17:00 showing
is rejected while 12:00–15:00 is accepted.  (Nondegeneracy `start < end`
is guaranteed by the end-time hook, which sets
`end = start + (duration + 30) minutes`.) -/
theorem room_conflict_halfopen :
    (∀ s e newS newE : ℤ, s < e → newS < newE →
       (overlapClause s e newS newE = true ↔ halfOpenOverlap s e newS newE)) ∧
    (∀ (schedules : List Schedule) (cand : Schedule),
       (∀ x ∈ schedules, x.startTime < x.endTime) →
       cand.startTime < cand.endTime →
       (∀ x ∈ schedules, x.sid ≠ cand.sid) →
       (scheduleOverlapCheck schedules cand = Except.error BookingError.roomConflict ↔
         ∃ x ∈ schedules, x.roomId = cand.roomId ∧
           x.status ≠ ScheduleStatus.cancelled ∧
           halfOpenOverlap x.startTime x.endTime cand.startTime cand.endTime)) ∧
    (scheduleOverlapCheck [showing1517] showing1416 =
       Except.error BookingError.roomConflict) ∧
    (scheduleOverlapCheck [showing1517] showing1215 = Except.ok showing1215) := by
  have hover : ∀ s e newS newE : ℤ, s < e → newS < newE →
      (overlapClause s e newS newE = true ↔ halfOpenOverlap s e newS newE) := by
    intro s e newS newE h1 h2
    simp only [overlapClause, halfOpenOverlap, Bool.or_eq_true, Bool.and_eq_true,
               decide_eq_true_eq]
    omega
  refine ⟨hover, ?_, rfl, rfl⟩
  intro schedules cand hwf hcand hfresh
  have hfind : (scheduleOverlapCheck schedules cand =
      Except.error BookingError.roomConflict) ↔
      (schedules.find? (conflictsWith cand)).isSome := by
    unfold scheduleOverlapCheck
    rcases h : schedules.find? (conflictsWith cand) with - | x <;> simp [h]
  rw [hfind, List.find?_isSome]
  constructor
  · rintro ⟨x, hx, hconf⟩
    simp only [conflictsWith, Bool.and_eq_true, bne_iff_ne, ne_eq, beq_iff_eq] at hconf
    obtain ⟨⟨⟨-, hroom⟩, hstat⟩, hov⟩ := hconf
    exact ⟨x, hx, hroom, hstat, (hover _ _ _ _ (hwf x hx) hcand).mp hov⟩
  · rintro ⟨x, hx, hroom, hstat, hov⟩
    refine ⟨x, hx, ?_⟩
    simp only [conflictsWith, Bool.and_eq_true, bne_iff_ne, ne_eq, beq_iff_eq]
    exact ⟨⟨⟨hfresh x hx, hroom⟩, hstat⟩, (hover _ _ _ _ (hwf x hx) hcand).mpr hov⟩

/-- Witness for C3: the overlap filter evaluated on the claim's concrete
intervals — 15:00–17:00 against the candidate 14:00–16:00 matches, and
the conflict equivalence instantiated on the one-showing collection. -/
theorem room_conflict_halfopen_witness :
    (overlapClause 900 1020 840 960 = true ↔ halfOpenOverlap 900 1020 840 960) ∧
    (scheduleOverlapCheck [showing1517] showing1416 =
        Except.error BookingError.roomConflict ↔
      ∃ x ∈ [showing1517], x.roomId = showing1416.roomId ∧
        x.status ≠ ScheduleStatus.cancelled ∧
        halfOpenOverlap x.startTime x.endTime showing1416.startTime showing1416.endTime) :=
  ⟨room_conflict_halfopen.1 900 1020 840 960 (by decide) (by decide),
   room_conflict_halfopen.2.1 [showing1517] showing1416
     (by intro x hx; simp at hx; subst hx; decide)
     (by decide)
     (by intro x hx; simp at hx; subst hx; decide)⟩

/-! ### C1 — per-showing seat uniqueness -/

/-- Claim C1: inserting through the partial unique index preserves the
invariant that for every showing and seat code at most one non-cancelled
— in particular at most one non-cancelled, non-expired — stored
reservation carries that code; and an insertion claiming a seat already
held by a non-cancelled, non-expired reservation is rejected with a seat
conflict. -/
theorem seat_claim_uniqueness :
    (∀ (store : List Ticket) (t : Ticket) (store' : List Ticket),
       SeatUnique store → insertTicket store t = Except.ok store' →
       ∀ (now : ℤ) (sid : ℕ) (c : String),
         (store'.filter (fun u => claimsSeat sid c u && nonExpired now u)).length ≤ 1) ∧
    (∀ (store : List Ticket) (t u : Ticket) (now : ℤ) (c : String),
       u ∈ store → nonCancelled u = true → nonExpired now u = true →
       u.scheduleId = t.scheduleId → c ∈ ticketSeatCodes u → c ∈ ticketSeatCodes t →
       nonCancelled t = true →
       insertTicket store t = Except.error BookingError.seatConflict) := by
  constructor
  · intro store t store' huniq hins now sid c
    have hok : seatIndexConflict store t = false ∧ store' = t :: store := by
      unfold insertTicket at hins
      rcases h : seatIndexConflict store t with - | -
      · rw [h] at hins; simp at hins; exact ⟨rfl, hins.symm⟩
      · rw [h] at hins; simp at hins
    obtain ⟨hconf, hstore'⟩ := hok
    subst hstore'
    have hmain : ((t :: store).filter (claimsSeat sid c)).length ≤ 1 := by
      rw [List.filter_cons]
      rcases hc : claimsSeat sid c t with - | -
      · simpa using huniq sid c
      · have hnone : store.filter (claimsSeat sid c) = [] := by
          rw [List.filter_eq_nil_iff]
          intro u hu hcu
          simp only [claimsSeat, Bool.and_eq_true, beq_iff_eq] at hc hcu
          obtain ⟨⟨hnc, hsid⟩, hcode⟩ := hc
          obtain ⟨⟨hnc', hsid'⟩, hcode'⟩ := hcu
          have : seatIndexConflict store t = true := by
            simp only [seatIndexConflict, Bool.and_eq_true, List.any_eq_true]
            refine ⟨hnc, u, hu, ⟨⟨hnc', by simp [hsid', hsid]⟩, c, ?_, ?_⟩⟩
            · simpa using hcode
            · simpa using hcode'
          rw [this] at hconf; cases hconf
        simp [hc, hnone]
    calc ((t :: store).filter (fun u => claimsSeat sid c u && nonExpired now u)).length
        = ((t :: store).filter (fun u => nonExpired now u && claimsSeat sid c u)).length := by
          congr 1
          exact List.filter_congr (fun a _ => Bool.and_comm _ _)
      _ = (((t :: store).filter (claimsSeat sid c)).filter (nonExpired now)).length := by
          rw [List.filter_filter]
      _ ≤ ((t :: store).filter (claimsSeat sid c)).length :=
          List.length_filter_le _ _
      _ ≤ 1 := hmain
  · intro store t u now c hu hnc hne hsid hcu hct hnct
    have : seatIndexConflict store t = true := by
      simp only [seatIndexConflict, Bool.and_eq_true, List.any_eq_true]
      refine ⟨hnct, u, hu, ⟨⟨hnc, by simp [hsid]⟩, c, ?_, ?_⟩⟩
      · simpa using hct
      · simpa using hcu
    unfold insertTicket
    rw [this]
    simp

/-- Witness for C1: inserting the scenario reservation into an empty
collection succeeds and leaves at most one holder of seat A1 of
showing 1; a rival reservation for seat A1 of the same showing is then
rejected with a seat conflict. -/
theorem seat_claim_uniqueness_witness :
    (([scenarioTicket].filter
        (fun u => claimsSeat 1 "A1" u && nonExpired 0 u)).length ≤ 1) ∧
    insertTicket [scenarioTicket] rivalTicket =
      Except.error BookingError.seatConflict :=
  ⟨seat_claim_uniqueness.1 [] scenarioTicket [scenarioTicket]
      (fun sid c => by simp) rfl 0 1 "A1",
   seat_claim_uniqueness.2 [scenarioTicket] rivalTicket scenarioTicket 0 "A1"
      (by simp) rfl rfl rfl (by decide) (by decide) rfl⟩

/-! ### C2 — hold expiry is not checked by payment propagation -/

/-- Counterexample to C2: the scenario reservation's hold has expired at
time 660000, yet applying the payment-success propagation moves it to
`paid` — there is no `HoldExpired` outcome — and a rival request for its
seat is still rejected with a seat conflict, so the seat is not
immediately claimable either. -/
theorem hold_expiry_counterexample :
    scenarioTicket.status = TicketStatus.pending ∧
    scenarioTicket.pendingExpiresAt < lateConfirmTime ∧
    (propagatePaymentStatus PaymentStatus.success scenarioTicket).status
        = TicketStatus.paid ∧
    insertTicket [scenarioTicket] rivalTicket =
      Except.error BookingError.seatConflict :=
  ⟨rfl, by decide, rfl, rfl⟩

/-- C2 as the code actually behaves: the payment-success propagation
reads no clock, so a pending reservation (whose recorded payment status
is not already `success`) is moved to `paid` even when its hold expiry
lies strictly in the past; and as long as the expired document has not
been reaped by the TTL monitor, any new request for one of its seats on
the same showing is rejected with a seat conflict. -/
theorem hold_expiry_amended :
    ∀ (t : Ticket) (now : ℤ), t.status = TicketStatus.pending →
      t.paymentStatus ≠ PaymentStatus.success →
      t.pendingExpiresAt < now →
      ((propagatePaymentStatus PaymentStatus.success t).status = TicketStatus.paid ∧
       ∀ t' : Ticket, nonCancelled t' = true → t'.scheduleId = t.scheduleId →
         (∃ c, c ∈ ticketSeatCodes t' ∧ c ∈ ticketSeatCodes t) →
         insertTicket [t] t' = Except.error BookingError.seatConflict) := by
  intro t now hpend hpay hexp
  constructor
  · have hne : (t.paymentStatus == PaymentStatus.success) = false := by
      simpa using hpay
    simp [propagatePaymentStatus, hne, hpend]
  · rintro t' hnc' hsid ⟨c, hct', hct⟩
    have hconf : seatIndexConflict [t] t' = true := by
      simp only [seatIndexConflict, Bool.and_eq_true, List.any_eq_true]
      refine ⟨hnc', t, by simp, ⟨⟨?_, by simp [hsid]⟩, c, by simpa using hct', by simpa using hct⟩⟩
      simp [nonCancelled, hpend]
    unfold insertTicket
    rw [hconf]
    simp

/-- Witness for the amended C2: the scenario reservation at the late
confirm time, with the rival request for seat A1. -/
theorem hold_expiry_amended_witness :
    (propagatePaymentStatus PaymentStatus.success scenarioTicket).status
        = TicketStatus.paid ∧
    insertTicket [scenarioTicket] rivalTicket =
      Except.error BookingError.seatConflict := by
  have h := hold_expiry_amended scenarioTicket lateConfirmTime rfl
    (by decide) (by decide)
  exact ⟨h.1, h.2 rivalTicket rfl rfl ⟨"A1", by decide, by decide⟩⟩

/-! ### C6 — the price snapshot is a frame invariant -/

/-- Claim C6: the stored price snapshots of all reservations are
untouched by an administrative edit of a showing's price table or of a
promotion's discount rules, and the pricing hook's recomputation depends
only on the reservation's own embedded seats, combos and voucher — it
never reads the current `Schedule` price table or `Promotion` record. -/
theorem price_snapshot_frame :
    (∀ (e : Env) (sid : ℕ) (pt : PriceTable),
       (updatePriceTable e sid pt).tickets.map snapshotOf =
         e.tickets.map snapshotOf) ∧
    (∀ (e : Env) (code : String) (ty : DiscountType) (v : ℚ) (md : Option ℚ),
       (updatePromotionRules e code ty v md).tickets.map snapshotOf =
         e.tickets.map snapshotOf) ∧
    (∀ t1 t2 : Ticket, t1.seats = t2.seats → t1.combos = t2.combos →
       t1.voucher = t2.voucher →
       snapshotOf (applyPricingHook t1) = snapshotOf (applyPricingHook t2)) := by
  refine ⟨fun e sid pt => rfl, fun e code ty v md => rfl, ?_⟩
  intro t1 t2 hs hc hv
  simp only [snapshotOf, applyPricingHook, hs, hc, hv]

/-- Witness for C6: two reservations sharing seats, combos and voucher
but booked by different users and carrying different stale totals receive
identical snapshots from the pricing hook. -/
theorem price_snapshot_frame_witness :
    snapshotOf (applyPricingHook scenarioTicket) =
      snapshotOf (applyPricingHook { scenarioTicket with userId := 2, subtotal := 999 }) :=
  price_snapshot_frame.2.2 scenarioTicket
    { scenarioTicket with userId := 2, subtotal := 999 } rfl rfl rfl

/-! ### C7 — cancellation and the final states -/

/-- Counterexample to C7: `cancel` rejects only tickets whose status is
already `cancelled`; invoked on a *refunded* reservation it succeeds and
moves the status back to `cancelled` instead of failing with
`AlreadyFinal`. -/
theorem cancel_refunded_counterexample :
    refundedTicket.status = TicketStatus.refunded ∧
    cancelTicket refundedTicket 7 "changed my mind" 1000 =
      Except.ok { refundedTicket with
                    status := TicketStatus.cancelled,
                    cancellationReason := "changed my mind",
                    cancelledBy := some 7,
                    cancelledAt := some 1000 } :=
  ⟨rfl, rfl⟩

/-- C7 as the code actually behaves: cancelling an already-cancelled
reservation fails (with the `already cancelled` error) and the document
is untouched, but cancelling a refunded reservation succeeds and moves it
to `cancelled`; payment-status propagation, on the other hand, never
changes the lifecycle status of a cancelled or refunded reservation. -/
theorem final_states_amended :
    (∀ (t : Ticket) (u : ℕ) (reason : String) (now : ℤ),
       t.status = TicketStatus.cancelled →
       cancelTicket t u reason now = Except.error "Ticket is already cancelled") ∧
    (∀ (t : Ticket) (u : ℕ) (reason : String) (now : ℤ),
       t.status = TicketStatus.refunded →
       cancelTicket t u reason now =
         Except.ok { t with status := TicketStatus.cancelled,
                            cancellationReason := reason,
                            cancelledBy := some u,
                            cancelledAt := some now }) ∧
    (∀ (ps : PaymentStatus) (t : Ticket),
       t.status = TicketStatus.cancelled ∨ t.status = TicketStatus.refunded →
       (propagatePaymentStatus ps t).status = t.status) := by
  refine ⟨?_, ?_, ?_⟩
  · intro t u reason now h
    simp [cancelTicket, h]
  · intro t u reason now h
    have : t.status ≠ TicketStatus.cancelled := by rw [h]; intro hc; cases hc
    simp [cancelTicket, this]
  · intro ps t h
    rcases h with h | h <;>
      rcases hps : t.paymentStatus == ps with - | - <;>
        simp [propagatePaymentStatus, hps, h]

/-- Witness for the amended C7: a cancelled reservation cannot be
cancelled again, the refunded scenario reservation is cancelled
successfully, and a success payment event leaves the refunded
reservation's status alone. -/
theorem final_states_amended_witness :
    cancelTicket { refundedTicket with status := TicketStatus.cancelled } 7 "again" 5 =
      Except.error "Ticket is already cancelled" ∧
    cancelTicket refundedTicket 7 "late cancel" 5 =
      Except.ok { refundedTicket with status := TicketStatus.cancelled,
                                      cancellationReason := "late cancel",
                                      cancelledBy := some 7,
                                      cancelledAt := some 5 } ∧
    (propagatePaymentStatus PaymentStatus.success refundedTicket).status =
      refundedTicket.status :=
  ⟨final_states_amended.1 { refundedTicket with status := TicketStatus.cancelled } 7 "again" 5 rfl,
   final_states_amended.2.1 refundedTicket 7 "late cancel" 5 rfl,
   final_states_amended.2.2 PaymentStatus.success refundedTicket (Or.inr rfl)⟩

/-! ### C8 — promotion usage caps under JavaScript truthiness -/

/-- Counterexample to C8: for a promotion whose usage cap `maxUses` is 0,
`currentUses` (= 0) has reached the cap, yet the shared truthiness guard
of `validateAndApply` and `incrementUsage` does not fire (0 is falsy in
JavaScript), so validation does not reject the code as exhausted and
`incrementUsage` happily increments `currentUses` to 1 — past the cap —
instead of failing. -/
theorem promo_zero_cap_counterexample :
    promoZeroCap.maxUses = some 0 ∧
    promoZeroCap.currentUses = 0 ∧
    maxUsesExhausted promoZeroCap = false ∧
    incrementUsage promoZeroCap = Except.ok { promoZeroCap with currentUses := 1 } :=
  ⟨rfl, rfl, rfl, rfl⟩

/-- C8 as the code actually behaves: for every promotion with a
*positive* usage cap, `currentUses` never exceeds `maxUses` — validation
rejects a promotion whose `currentUses` has reached the cap as exhausted,
and `incrementUsage` fails (leaving the document unchanged) instead of
incrementing past it — while a cap of zero is treated as the absence of a
cap. -/
theorem promo_usage_cap_amended :
    ∀ (p : Promotion) (m : ℕ), p.maxUses = some m → 0 < m →
      ((∀ (promos : List Promotion) (code : String) (userId : Option ℕ)
          (orderAmount : ℚ) (movieId : Option ℕ) (genres : List String)
          (now : ℤ) (tickets : List Ticket) (ue : Bool),
          findPromotion promos code now = some p → m ≤ p.currentUses →
          validateAndApply promos code userId orderAmount movieId genres now tickets ue =
            Except.error PromoRejection.exhausted) ∧
       (m ≤ p.currentUses →
          incrementUsage p = Except.error "Promotion usage limit reached") ∧
       (p.currentUses ≤ m → ∀ p' : Promotion, incrementUsage p = Except.ok p' →
          p'.currentUses ≤ m)) := by
  intro p m hmax hm
  have hguard : m ≤ p.currentUses → maxUsesExhausted p = true := by
    intro hge
    simp [maxUsesExhausted, jsTruthyNat, hmax, hge, Nat.pos_iff_ne_zero.mp hm]
  refine ⟨?_, ?_, ?_⟩
  · intro promos code userId orderAmount movieId genres now tickets ue hfind hge
    simp [validateAndApply, hfind, hguard hge]
  · intro hge
    simp [incrementUsage, hguard hge]
  · intro hle p' hok
    unfold incrementUsage at hok
    rcases hex : maxUsesExhausted p with - | -
    · rw [hex] at hok
      simp only [Bool.false_eq_true, if_false] at hok
      have hcu : p.currentUses < m := by
        simp [maxUsesExhausted, jsTruthyNat, hmax, Nat.pos_iff_ne_zero.mp hm] at hex
        omega
      split at hok <;>
        · cases hok
          show p.currentUses + 1 ≤ m
          omega
    · rw [hex] at hok
      simp at hok

/-- Witness for the amended C8: the fully-consumed two-use promotion is
rejected as exhausted by validation and `incrementUsage` errors out. -/
theorem promo_usage_cap_amended_witness :
    validateAndApply [promoCapTwo] "CAPTWO" none 310000 none [] 500 [] true =
      Except.error PromoRejection.exhausted ∧
    incrementUsage promoCapTwo = Except.error "Promotion usage limit reached" :=
  ⟨(promo_usage_cap_amended promoCapTwo 2 rfl (by decide)).1
      [promoCapTwo] "CAPTWO" none 310000 none [] 500 [] true rfl (by decide),
   (promo_usage_cap_amended promoCapTwo 2 rfl (by decide)).2.1 (by decide)⟩

/-! ### C9 — customer-eligibility counting -/

/-- Counterexample to C9: customer 5 has zero prior *paid* reservations
(their single prior reservation is cancelled), so under the claim's
counting the first-time-customer check passes and — with the promotion
active and no other restriction set — the customer is eligible; but
`canBeUsedByUser` counts *all* prior reservations (`countDocuments({
userId })`, no status filter) and rejects the customer. -/
theorem promo_eligibility_counterexample :
    isCurrentlyActive promoFirstOnly 0 = true ∧
    countTickets [priorCancelledTicket] (paidOrdersPred 5) = 0 ∧
    specEligibilityChecks promoFirstOnly [priorCancelledTicket] 5 = true ∧
    canBeUsedByUser promoFirstOnly 0 [priorCancelledTicket] 5 true = false := by
  refine ⟨rfl, rfl, rfl, ?_⟩
  decide

/-- C9 as the code actually behaves: for an active promotion and an
existing user record, `canBeUsedByUser` passes iff the
first-time-customer check sees zero prior reservations *of any status*,
the minimum-prior-orders check (when a minimum is set) sees at least that
many prior *paid* reservations, and the one-use-per-customer check sees
zero prior non-cancelled reservations carrying this promotion's code. -/
theorem promo_eligibility_amended :
    ∀ (p : Promotion) (now : ℤ) (tickets : List Ticket) (u : ℕ),
      isCurrentlyActive p now = true →
      (canBeUsedByUser p now tickets u true = true ↔
        ((p.usageRestrictions.firstTimeUserOnly = true →
            countTickets tickets (allOrdersPred u) = 0) ∧
         (0 < p.usageRestrictions.minPreviousOrders →
            p.usageRestrictions.minPreviousOrders ≤
              countTickets tickets (paidOrdersPred u)) ∧
         (p.usageRestrictions.onePerUser = true →
            countTickets tickets (promoUsedPred p.code u) = 0))) := by
  intro p now tickets u hact
  rcases hft : p.usageRestrictions.firstTimeUserOnly with - | - <;>
    rcases hop : p.usageRestrictions.onePerUser with - | - <;>
      simp only [canBeUsedByUser, hact, hft, hop, Bool.not_true, Bool.not_false,
                 Bool.false_eq_true, Bool.false_and, Bool.true_and, if_false, if_true,
                 decide_eq_true_eq, false_implies, true_implies, true_and, and_true] <;>
      split_ifs <;> simp_all <;> omega

/-- Witness for the amended C9: the eligibility equivalence instantiated
at the first-time-only promotion, customer 5 and their single cancelled
prior reservation. -/
theorem promo_eligibility_amended_witness :
    canBeUsedByUser promoFirstOnly 0 [priorCancelledTicket] 5 true = true ↔
      ((promoFirstOnly.usageRestrictions.firstTimeUserOnly = true →
          countTickets [priorCancelledTicket] (allOrdersPred 5) = 0) ∧
       (0 < promoFirstOnly.usageRestrictions.minPreviousOrders →
          promoFirstOnly.usageRestrictions.minPreviousOrders ≤
            countTickets [priorCancelledTicket] (paidOrdersPred 5)) ∧
       (promoFirstOnly.usageRestrictions.onePerUser = true →
          countTickets [priorCancelledTicket] (promoUsedPred promoFirstOnly.code 5) = 0)) :=
  promo_eligibility_amended promoFirstOnly 0 [priorCancelledTicket] 5 rfl

/-! ### C10 — seat-map generation -/

lemma seatMapRows_sq (c : ℕ) : (3 * c + 1) / 2 ≤ seatMapRows c * seatMapRows c := by
  unfold seatMapRows
  split_ifs with h
  · omega
  · have h2 := Nat.lt_succ_sqrt ((3 * c + 1) / 2)
    rw [Nat.succ_eq_add_one] at h2
    omega

lemma seatMapRows_le26 {c : ℕ} (hc : c ≤ 450) : seatMapRows c ≤ 26 := by
  have hm : (3 * c + 1) / 2 ≤ 675 := by omega
  have hs : Nat.sqrt ((3 * c + 1) / 2) < 26 := Nat.sqrt_lt.mpr (by omega)
  unfold seatMapRows
  split_ifs <;> omega

lemma seatMapRows_pos {c : ℕ} (hc : 1 ≤ c) : 1 ≤ seatMapRows c := by
  have h2 : 2 ≤ (3 * c + 1) / 2 := by omega
  have hsq := seatMapRows_sq c
  by_contra h
  have h0 : seatMapRows c = 0 := by omega
  rw [h0] at hsq
  omega

lemma le_mul_seatsPerRow {c rows : ℕ} (hrows : 1 ≤ rows) :
    c ≤ rows * seatsPerRow c rows := by
  unfold seatsPerRow
  have hdm := Nat.div_add_mod (c + rows - 1) rows
  have hlt : (c + rows - 1) % rows < rows := Nat.mod_lt _ (by omega)
  have key : ∀ A, A + (c + rows - 1) % rows = c + rows - 1 →
      (c + rows - 1) % rows < rows → c ≤ A := by
    intro A h1 h2
    omega
  exact key _ hdm hlt

lemma seatsPerRow_le18 {c : ℕ} (h1 : 1 ≤ c) (h450 : c ≤ 450) :
    seatsPerRow c (seatMapRows c) ≤ 18 := by
  have hRpos : 1 ≤ seatMapRows c := seatMapRows_pos h1
  have hsq := seatMapRows_sq c
  have h3c : 3 * c ≤ 2 * (seatMapRows c * seatMapRows c) := by omega
  have hc18 : c ≤ 18 * seatMapRows c := by
    by_contra hlt
    push_neg at hlt
    have hmul : (18 * seatMapRows c) * (18 * seatMapRows c) < c * c :=
      Nat.mul_self_lt_mul_self hlt
    have hup : c * c ≤ 486 * c := Nat.mul_le_mul_right c (by omega)
    have h486 : 486 * c ≤ 324 * (seatMapRows c * seatMapRows c) := by
      have h162 := Nat.mul_le_mul (le_refl 162) h3c
      calc 486 * c = 162 * (3 * c) := by ring
        _ ≤ 162 * (2 * (seatMapRows c * seatMapRows c)) := h162
        _ = 324 * (seatMapRows c * seatMapRows c) := by ring
    have heq : (18 * seatMapRows c) * (18 * seatMapRows c) =
        324 * (seatMapRows c * seatMapRows c) := by ring
    omega
  unfold seatsPerRow
  have hd : (c + seatMapRows c - 1) / seatMapRows c < 19 :=
    (Nat.div_lt_iff_lt_mul (by omega)).mpr (by omega)
  exact Nat.lt_succ_iff.mp hd

lemma generateSeatMap_eq (c : ℕ) :
    generateSeatMap c =
      (((List.range (seatMapRows c)) ×ˢ
          (List.range (seatsPerRow c (seatMapRows c)))).map
        (fun p => mkRoomSeat p.1 p.2)).take c := by
  unfold generateSeatMap
  congr 1
  simp only [SProd.sprod, List.product, List.flatMap_def, List.map_flatten,
             List.map_map, Function.comp_def]

lemma generateSeatMap_length {c : ℕ} (hc : 1 ≤ c) : (generateSeatMap c).length = c := by
  rw [generateSeatMap_eq, List.length_take, List.length_map, List.length_product,
      List.length_range, List.length_range]
  exact min_eq_left (le_mul_seatsPerRow (seatMapRows_pos hc))

lemma mem_generateSeatMap {c : ℕ} {s : RoomSeat} (hs : s ∈ generateSeatMap c) :
    ∃ r j, r < seatMapRows c ∧ j < seatsPerRow c (seatMapRows c) ∧ s = mkRoomSeat r j := by
  rw [generateSeatMap_eq] at hs
  have hs' := List.take_subset _ _ hs
  simp only [List.mem_map] at hs'
  obtain ⟨⟨r, j⟩, hp, rfl⟩ := hs'
  rw [List.mem_product] at hp
  simp only [List.mem_range] at hp
  exact ⟨r, j, hp.1, hp.2, rfl⟩

lemma rowChar_inj : ∀ r < 26, ∀ q < 26, Char.ofNat (65 + r) = Char.ofNat (65 + q) → r = q := by
  decide

lemma repr_inj_small : ∀ a < 20, ∀ b < 20, Nat.repr a = Nat.repr b → a = b := by
  decide

lemma mkRoomSeat_code_inj {r j q k : ℕ} (hr : r < 26) (hq : q < 26)
    (hj : j < 19) (hk : k < 19)
    (h : (mkRoomSeat r j).code = (mkRoomSeat q k).code) : r = q ∧ j = k := by
  have h' : rowLetter r ++ Nat.repr (j + 1) = rowLetter q ++ Nat.repr (k + 1) := h
  unfold rowLetter at h'
  rw [if_pos hr, if_pos hq] at h'
  have hd : (String.singleton (Char.ofNat (65 + r))).data ++ (Nat.repr (j + 1)).data =
      (String.singleton (Char.ofNat (65 + q))).data ++ (Nat.repr (k + 1)).data := by
    rw [← String.data_append, ← String.data_append, h']
  have hd' : Char.ofNat (65 + r) :: (Nat.repr (j + 1)).data =
      Char.ofNat (65 + q) :: (Nat.repr (k + 1)).data := hd
  injection hd' with hch hdata
  have hrq : r = q := rowChar_inj r hr q hq hch
  have hjk : j + 1 = k + 1 :=
    repr_inj_small (j + 1) (by omega) (k + 1) (by omega) (String.ext hdata)
  exact ⟨hrq, by omega⟩

lemma generateSeatMap_codes_nodup {c : ℕ} (h1 : 1 ≤ c) (hc : c ≤ 450) :
    ((generateSeatMap c).map (fun s => s.code)).Nodup := by
  rw [generateSeatMap_eq, List.map_take]
  apply (List.take_sublist _ _).nodup
  rw [List.map_map]
  apply List.Nodup.map_on
  · rintro ⟨r, j⟩ hp ⟨q, k⟩ hq h
    rw [List.mem_product] at hp hq
    simp only [List.mem_range] at hp hq
    have h26 := seatMapRows_le26 hc
    have h18 := seatsPerRow_le18 h1 hc
    have hinj := mkRoomSeat_code_inj
      (lt_of_lt_of_le hp.1 h26) (lt_of_lt_of_le hq.1 h26)
      (by omega) (by omega) h
    obtain ⟨hrq, hjk⟩ := hinj
    subst hrq
    subst hjk
    rfl
  · exact (List.nodup_range _).product (List.nodup_range _)

/-- C10 as the code actually behaves, for room capacities between 1 and
450 (the range in which the generated grid never needs a row index beyond
the 26-letter alphabet): saving a room with a new or modified capacity
regenerates the seat map from the capacity alone, discarding any
caller-supplied seat list and resetting `capacity` to the generated
length; the map has exactly `capacity` seats with pairwise-distinct codes
of the form row letter followed by the 1-based column number, seats of
the first two rows are vip and the rest standard, and every seat starts
available.  For larger capacities the letter lookup runs off the
alphabet and produces `"undefined"`-prefixed codes (see the
counterexample). -/
theorem seat_map_regen_amended :
    (∀ c : ℕ, 1 ≤ c → c ≤ 450 →
       ((generateSeatMap c).length = c ∧
        ((generateSeatMap c).map (fun s => s.code)).Nodup ∧
        (∀ s ∈ generateSeatMap c, s.row < 26 ∧
           s.code = String.singleton (Char.ofNat (65 + s.row)) ++ Nat.repr (s.column + 1) ∧
           s.type = (if s.row < 2 then SeatType.vip else SeatType.standard) ∧
           s.status = RoomSeatStatus.available))) ∧
    (∀ (r : Room) (isNew modCap : Bool), (isNew || modCap) = true →
       (roomPreSave r isNew modCap).seats = generateSeatMap r.capacity ∧
       (roomPreSave r isNew modCap).capacity = (roomPreSave r isNew modCap).seats.length) := by
  constructor
  · intro c h1 h450
    refine ⟨generateSeatMap_length h1, generateSeatMap_codes_nodup h1 h450, ?_⟩
    intro s hs
    obtain ⟨r, j, hr, hj, rfl⟩ := mem_generateSeatMap hs
    have h26 : r < 26 := lt_of_lt_of_le hr (seatMapRows_le26 h450)
    refine ⟨h26, ?_, rfl, rfl⟩
    show rowLetter r ++ Nat.repr (j + 1) =
      String.singleton (Char.ofNat (65 + r)) ++ Nat.repr (j + 1)
    unfold rowLetter
    rw [if_pos h26]
  · intro r isNew modCap hb
    simp [roomPreSave, hb]

lemma not_nodup_of_dup {α : Type} (l : List α) (i j : ℕ) (hij : i < j)
    (hj : j < l.length) (h : l[i]? = l[j]?) : ¬ l.Nodup :=
  fun hn => (List.nodup_iff_getElem?_ne_getElem?.mp hn i j hij hj) h

set_option maxRecDepth 40000 in
/-- Counterexample to C10: at capacity 451 the generated grid needs 27
rows, `alphabet[26]` is JavaScript `undefined`, and the map contains the
seat code `"undefined1"` — not a row letter followed by a column number;
at capacity 550 (29 rows) both row 26 and row 27 render as
`"undefined"`, so the codes are no longer pairwise distinct (positions
494 and 513 both hold `"undefined1"`). -/
theorem seat_map_counterexample :
    ((generateSeatMap 451).map (fun s => s.code)).contains "undefined1" = true ∧
    ¬ ((generateSeatMap 550).map (fun s => s.code)).Nodup := by
  have h451 : seatMapRows 451 = 27 := by
    unfold seatMapRows
    norm_num
  have h451s : seatsPerRow 451 27 = 17 := by
    unfold seatsPerRow
    norm_num
  have h550 : seatMapRows 550 = 29 := by
    unfold seatMapRows
    norm_num
  have h550s : seatsPerRow 550 29 = 19 := by
    unfold seatsPerRow
    norm_num
  have hg451 : generateSeatMap 451 =
      (((List.range 27).map (fun r =>
          (List.range 17).map (fun j => mkRoomSeat r j))).flatten).take 451 := by
    unfold generateSeatMap
    rw [h451, h451s]
  have hg550 : generateSeatMap 550 =
      (((List.range 29).map (fun r =>
          (List.range 19).map (fun j => mkRoomSeat r j))).flatten).take 550 := by
    unfold generateSeatMap
    rw [h550, h550s]
  constructor
  · rw [hg451]
    decide
  · rw [hg550]
    apply not_nodup_of_dup _ 494 513 (by norm_num)
    · decide
    · decide

/-- Witness for the amended C10: the regeneration contract instantiated
at capacity 10 and at the ten-seat room fixture being saved as new. -/
theorem seat_map_regen_amended_witness :
    ((generateSeatMap 10).length = 10 ∧
     ((generateSeatMap 10).map (fun s => s.code)).Nodup ∧
     (∀ s ∈ generateSeatMap 10, s.row < 26 ∧
        s.code = String.singleton (Char.ofNat (65 + s.row)) ++ Nat.repr (s.column + 1) ∧
        s.type = (if s.row < 2 then SeatType.vip else SeatType.standard) ∧
        s.status = RoomSeatStatus.available)) ∧
    ((roomPreSave scenarioRoom true false).seats = generateSeatMap scenarioRoom.capacity ∧
     (roomPreSave scenarioRoom true false).capacity =
       (roomPreSave scenarioRoom true false).seats.length) :=
  ⟨seat_map_regen_amended.1 10 (by norm_num) (by norm_num),
   seat_map_regen_amended.2 scenarioRoom true false rfl⟩

end Vexemphim
